import Mathlib

/-!
Verification development for the nn-playground repository: a shallow
embedding of the feedforward-network trainer (src/network.py,
src/layers.py, src/optim.py) over exact rational arithmetic, together
with theorems settling the frozen specification claims.

Conventions of the embedding:
* numpy arrays become lists: a vector is `List Rat`, a matrix is a list
  of rows, and `W[:, :-1]` / `W[:, -1]` become `stripBias` / `biasCol`.
* The transcendental activations sigmoid (imported from the absent
  src/util.py) and numpy tanh enter the computation only through their
  output values, so `layerFwd` takes them as function parameters
  `sig th : Rat -> Rat`; every theorem quantifies over them.
* Python exceptions that the control flow of the embedded code can raise
  (TypeError from a call-arity mismatch or calling None, AttributeError
  from a missing attribute, ValueError from an explicit raise,
  AssertionError from a failing assert) are modelled by `PyErr` and
  `Except`.
* Random draws are parameters: `draw` supplies the raw standard-normal
  values used by layer construction, and a shuffle permutation is passed
  explicitly.
-/

namespace NNPlayground

abbrev Vec := List Rat
abbrev Mat := List (List Rat)

/-- Dot product of two vectors, as `np.dot` on 1-D arrays. -/
def dot (a b : Vec) : Rat := (List.zipWith (· * ·) a b).sum

/-- Elementwise vector sum. -/
def vecAdd (a b : Vec) : Vec := List.zipWith (· + ·) a b

/-- Scalar times matrix, elementwise. -/
def matScale (c : Rat) (M : Mat) : Mat := M.map (fun r => r.map (fun x => c * x))

/-- Elementwise matrix sum. -/
def matAdd (A B : Mat) : Mat := List.zipWith (List.zipWith (· + ·)) A B

/-- Elementwise matrix difference. -/
def matSub (A B : Mat) : Mat := List.zipWith (List.zipWith (· - ·)) A B

/-- `np.zeros(M.shape)` for a matrix `M`. -/
def zerosLike (M : Mat) : Mat := M.map (fun r => r.map (fun _ => (0 : Rat)))

/-- `np.zeros((n, m))`. -/
def zerosMat (n m : Nat) : Mat := List.replicate n (List.replicate m (0 : Rat))

/-- The list of row lengths of a matrix: its length is the row count, so
two matrices have equal `matShape` exactly when they have the same shape. -/
def matShape (M : Mat) : List Nat := M.map List.length

/-- `W[:, :-1]`: every row without its final (bias) entry. -/
def stripBias (M : Mat) : Mat := M.map List.dropLast

/-- `W[:, -1]`: the final (bias) column. -/
def biasCol (M : Mat) : Vec := M.map (fun r => r.getLastD 0)

/-- `np.dot(M, x)` for a matrix and a vector. -/
def mvMul (M : Mat) (x : Vec) : Vec := M.map (fun r => dot r x)

/-- `M.T.dot(g)`: the transposed matrix applied to a vector. -/
def mTvMul (M : Mat) (g : Vec) : Vec := M.transpose.map (fun c => dot c g)

/-- The four layer classes of src/layers.py: `LinearLayer`, `ReLuLayer`,
`SigmoidLayer`, `TanhLayer`. -/
inductive ActKind
  | linear
  | relu
  | sigmoid
  | tanh
deriving DecidableEq, Repr

/-- The mutable state of one `Layer` (src/layers.py). `_num_neurons` is
recoverable as `weights.length` and is not stored separately. The 1-D
`np.zeros(num_neurons)` placeholder that `__init__` puts in
`_grad_inputs` (rebound to a matrix on the first forward pass, never
read before then) is modelled as that many empty rows. -/
structure Layer where
  kind : ActKind
  weights : Mat
  gradInputs : Mat
  gradWeights : Mat
  weightGrad : Mat
deriving DecidableEq, Repr

def Layer.numNeurons (l : Layer) : Nat := l.weights.length

/-- The caches written by the ReLU, sigmoid and tanh `forward_pass`
bodies, which share one pattern: `_grad_inputs` is the weight submatrix
with row `i` scaled by the activation derivative `g i`, and
`_grad_weights` has row `i` equal to `g i * inputs` with bias entry
`g i`. -/
def gradCaches (g : Vec) (W : Mat) (x : Vec) : Mat × Mat :=
  (List.zipWith (fun gi r => r.map (fun w => gi * w)) g (stripBias W),
   List.zipWith (fun gi _ => x.map (fun xi => gi * xi) ++ [gi]) g W)

/-- `forward_pass` of the four layer subclasses: computes the affine
transform `weights[:, :-1] . x + weights[:, -1]`, applies the
activation, and stores the local derivative caches; returns the output
and the updated layer. `sig` and `th` interpret the sigmoid and tanh
value functions. -/
def layerFwd (sig th : Rat → Rat) (l : Layer) (x : Vec) : Vec × Layer :=
  let z := vecAdd (mvMul (stripBias l.weights) x) (biasCol l.weights)
  match l.kind with
  | .linear =>
      (z, { l with gradInputs := stripBias l.weights,
                   gradWeights := l.weights.map (fun _ => x ++ [1]) })
  | .relu =>
      let out := z.map (fun v => max 0 v)
      let g := out.map (fun v => if 0 < v then (1 : Rat) else 0)
      let c := gradCaches g l.weights x
      (out, { l with gradInputs := c.1, gradWeights := c.2 })
  | .sigmoid =>
      let out := z.map sig
      let g := out.map (fun o => o * (1 - o))
      let c := gradCaches g l.weights x
      (out, { l with gradInputs := c.1, gradWeights := c.2 })
  | .tanh =>
      let out := z.map th
      let g := out.map (fun o => 1 - o ^ 2)
      let c := gradCaches g l.weights x
      (out, { l with gradInputs := c.1, gradWeights := c.2 })

/-- `Layer.back_propagate` (src/layers.py lines 21-28): returns
`_grad_inputs.T.dot(gradient_in)` and writes `_weight_grad`.  Note the
bias column: the source assigns the scalar
`_grad_weights[:, -1].T.dot(gradient_in)` to the whole column
`_weight_grad[:, -1]`, broadcasting one dot-product value into every
row. -/
def backPropagate (l : Layer) (gIn : Vec) : Vec × Layer :=
  let gradOut := mTvMul l.gradInputs gIn
  let s := dot (biasCol l.gradWeights) gIn
  let wg := List.zipWith (fun gi r => r.dropLast.map (fun w => gi * w) ++ [s]) gIn l.gradWeights
  (gradOut, { l with weightGrad := wg })

/-- The cost names dispatched by `NeuralNetwork._set_cost` to functions
of the absent src/models.py module. -/
inductive CostKind
  | mse
  | svm
  | ce
  | expc
deriving DecidableEq, Repr

/-- The state of a `NeuralNetwork`: the ordered layer list and the
selected cost (`None` when `_set_cost` fell through). -/
structure Network where
  layers : List Layer
  cost : Option CostKind
deriving DecidableEq, Repr

/-- `NeuralNetwork.forward_pass` over the layer list, threading each
output into the next layer and collecting the updated caches. -/
def forwardLayers (sig th : Rat → Rat) : List Layer → Vec → Vec × List Layer
  | [], x => (x, [])
  | l :: ls, x =>
      let p := layerFwd sig th l x
      let q := forwardLayers sig th ls p.1
      (q.1, p.2 :: q.2)

/-- `NeuralNetwork.forward_pass`. -/
def forwardPass (sig th : Rat → Rat) (net : Network) (x : Vec) : Vec × Network :=
  let p := forwardLayers sig th net.layers x
  (p.1, { net with layers := p.2 })

/-- The loop body of `NeuralNetwork.back_prop`, processing layers in the
given (already reversed) order: each step back-propagates the incoming
gradient, then applies `layer.weights -= reg*layer.weights` to that
layer.  The local `weights_grads` list of the source is dead and not
modelled. -/
def backPropLayers (reg : Rat) : Vec → List Layer → Vec × List Layer
  | g, [] => (g, [])
  | g, l :: ls =>
      let p := backPropagate l g
      let l' := { p.2 with weights := matSub p.2.weights (matScale reg p.2.weights) }
      let q := backPropLayers reg p.1 ls
      (q.1, l' :: q.2)

/-- `NeuralNetwork.back_prop(cost_grad, reg)` (src/network.py lines
156-164): iterates over `reversed(self._layers)`. -/
def backProp (net : Network) (costGrad : Vec) (reg : Rat) : Network :=
  { net with layers := ((backPropLayers reg costGrad net.layers.reverse).2).reverse }

/-- The Python exceptions arising in the embedded control flow. -/
inductive PyErr
  | typeError
  | attributeError
  | valueError
  | assertionError
deriving DecidableEq, Repr

/-- Modelled from the spec: `get_weights` is absent from src/network.py
(only the `save_weights`/`read_weights` stubs exist); section 6 of the
spec defines it as returning the ordered list of per-layer weight
matrices. -/
def getWeights (net : Network) : List Mat := net.layers.map Layer.weights

/-- `NeuralNetwork.set_weights` (src/network.py lines 150-154): asserts
only that the list length equals the layer count, then installs each
matrix verbatim; per-layer shapes are never examined. -/
def setWeights (net : Network) (ws : List Mat) : Except PyErr Network :=
  if ws.length = net.layers.length then
    .ok { net with layers := List.zipWith (fun l w => { l with weights := w }) net.layers ws }
  else .error .assertionError

/-- `NeuralNetwork.shuffle_train_data` (src/network.py lines 170-174):
asserts equal lengths, then applies one permutation (here passed
explicitly, standing for `np.random.permutation`) to both arrays. -/
def shuffleTrainData (data labels : List Vec) (perm : List Nat) :
    Except PyErr (List Vec × List Vec) :=
  if data.length = labels.length then
    .ok (perm.map (fun i => data.getD i []), perm.map (fun i => labels.getD i []))
  else .error .assertionError

/-- `NeuralNetwork._set_activation` (src/network.py lines 102-119). In
the source, the final branch evaluates `ValueError("Activation function
not supported")` but never raises it, so an unknown name makes the
function return `None`. -/
def setActivation (name : String) : Option ActKind :=
  if name = "linear" then some .linear
  else if name = "relu" then some .relu
  else if name = "tanh" then some .tanh
  else if name = "sigmoid" then some .sigmoid
  else none

/-- `NeuralNetwork._set_cost` (src/network.py lines 121-135): there is
no else branch, so an unknown name falls through and returns `None`. -/
def setCost (name : String) : Option CostKind :=
  if name = "mse" then some .mse
  else if name = "svm" then some .svm
  else if name = "ce" then some .ce
  else if name = "expc" then some .expc
  else none

/-- `Layer.__init__(num_neurons, num_inputs, init_fact)`: the weight
matrix is `np.random.randn(num_neurons, num_inputs+1) * init_fact`, with
the raw draws supplied by `draw`; the gradient buffers start as zeros of
the weight shape (and the 1-D `_grad_inputs` placeholder as empty
rows). -/
def mkLayer (k : ActKind) (numNeurons numInputs : Nat) (initFact : Rat)
    (draw : Nat → Nat → Rat) : Layer :=
  { kind := k
    weights := (List.range numNeurons).map
      (fun i => (List.range (numInputs + 1)).map (fun j => initFact * draw i j))
    gradInputs := List.replicate numNeurons []
    gradWeights := zerosMat numNeurons (numInputs + 1)
    weightGrad := zerosMat numNeurons (numInputs + 1) }

/-- The `for idx in range(num_hidden-1)` loop of
`NeuralNetwork.__init__`: each appended layer has `neurons_per_hidden`
neurons and takes its input count from the previous layer; `facts idx`
is the `init_fact` value current at iteration `idx` (see `initFacts`
for how the source computes it) and `draw idx` the raw draws of that
layer. -/
def mkHidden (k : ActKind) (nph : Nat) (facts : Nat → Rat) (draw : Nat → Nat → Nat → Rat) :
    Nat → Nat → Nat → List Layer
  | _, 0, _ => []
  | prevN, count + 1, idx =>
      let l := mkLayer k nph prevN (facts idx) (draw idx)
      l :: mkHidden k nph facts draw l.numNeurons count (idx + 1)

/-- The layer list built by `NeuralNetwork.__init__` (src/network.py
lines 9-26): a first hidden layer constructed with the default
`init_fact=0.01` (it is created before `init_fact` is computed), then
`num_hidden - 1` further hidden layers using the running `init_fact`,
then a final `LinearLayer` again with the default `0.01`. With
`h_et_al=False` the running factor is the constant `0.01`, i.e.
`facts = fun _ => 1/100`; with `h_et_al=True` it is the real-valued
sequence computed by `initFacts` below. -/
def mkNetLayers (k : ActKind) (inputSize outputSize numHidden nph : Nat)
    (facts : Nat → Rat) (draw : Nat → Nat → Nat → Rat) : List Layer :=
  let l0 := mkLayer k nph inputSize (1 / 100) (draw 0)
  let hs := mkHidden k nph facts draw l0.numNeurons (numHidden - 1) 1
  let prev := hs.getLastD l0
  (l0 :: hs) ++ [mkLayer .linear outputSize prev.numNeurons (1 / 100) (draw numHidden)]

/-- `NeuralNetwork.__init__`: `_set_activation` runs first; when it
returns `None`, building the first hidden layer calls `None(...)` and
raises TypeError. `self.cost` is set to whatever `_set_cost` returns,
so an unknown cost name is stored as `None` and construction returns
normally. -/
def mkNetwork (inputSize outputSize numHidden nph : Nat) (activation costName : String)
    (facts : Nat → Rat) (draw : Nat → Nat → Nat → Rat) : Except PyErr Network :=
  match setActivation activation with
  | none => .error .typeError
  | some k =>
      .ok { layers := mkNetLayers k inputSize outputSize numHidden nph facts draw
            cost := setCost costName }


/-- `GDOptimizer` (src/optim.py lines 5-13). Its `__init__` takes only
`learn_rate`, which is why `_set_optimizer` cannot construct it (see
`setOptimizer`). -/
structure GDOptimizer where
  learnRate : Rat
deriving DecidableEq, Repr

/-- `GDOptimizer.optimize(network)`: on the first layer the in-place
update `layer.weights -= layer._weight_grad * self._learn_rate`
succeeds, and then `layer.biases -= ...` reads the nonexistent
attribute `biases`, raising AttributeError; the loop aborts leaving
every later layer untouched. On an empty layer list the loop completes
with no error. -/
def GDOptimizer.optimize (o : GDOptimizer) (net : Network) : Network × Option PyErr :=
  match net.layers with
  | [] => (net, none)
  | l :: ls =>
      ({ net with layers :=
          { l with weights := matSub l.weights (matScale o.learnRate l.weightGrad) } :: ls },
       some .attributeError)

/-- `MomentumOptimizer` (src/optim.py lines 16-28): holds the learning
rate, the momentum coefficient, and one accumulator per layer. -/
structure MomentumOptimizer where
  learnRate : Rat
  momPar : Rat
  momentum : List Mat
deriving DecidableEq, Repr

/-- `MomentumOptimizer.__init__(learn_rate, mom_par, network)`:
allocates `np.zeros(layer.weight_grad.shape)` for every layer of the
network, at attach time. -/
def MomentumOptimizer.attach (lr mom : Rat) (net : Network) : MomentumOptimizer :=
  { learnRate := lr, momPar := mom,
    momentum := net.layers.map (fun l => zerosLike l.weightGrad) }

/-- The loop of `MomentumOptimizer.optimize`:
`momentum[idx] = mom*momentum[idx] - lr*layer.weight_grad` followed by
`layer.weights += momentum[idx]`, returning the updated accumulators
and layers. Surplus accumulators are left unchanged as in the source;
the case of fewer accumulators than layers would raise IndexError in
the source and is unreachable when the optimizer was attached to the
same network. -/
def momLoop (lr mom : Rat) : List Mat → List Layer → List Mat × List Layer
  | m :: ms, l :: ls =>
      let m' := matSub (matScale mom m) (matScale lr l.weightGrad)
      let q := momLoop lr mom ms ls
      (m' :: q.1, { l with weights := matAdd l.weights m' } :: q.2)
  | ms, [] => (ms, [])
  | [], l :: ls => ([], l :: ls)

/-- `MomentumOptimizer.optimize(network)`. -/
def MomentumOptimizer.optimize (o : MomentumOptimizer) (net : Network) :
    MomentumOptimizer × Network :=
  let q := momLoop o.learnRate o.momPar o.momentum net.layers
  ({ o with momentum := q.1 }, { net with layers := q.2 })

/-- `NAGOptimizer` (src/optim.py lines 31-44): same state as the
momentum optimizer. -/
structure NAGOptimizer where
  learnRate : Rat
  momPar : Rat
  momentum : List Mat
deriving DecidableEq, Repr

/-- `NAGOptimizer.__init__(learn_rate, mom_par, network)`: allocates
`np.zeros(layer.weight_grad.shape)` per layer at attach time. -/
def NAGOptimizer.attach (lr mom : Rat) (net : Network) : NAGOptimizer :=
  { learnRate := lr, momPar := mom,
    momentum := net.layers.map (fun l => zerosLike l.weightGrad) }

/-- The optimizer object stored in `self.optimizer` when
`_set_optimizer` succeeds. -/
inductive OptimizerState
  | momentum : MomentumOptimizer → OptimizerState
  | nag : NAGOptimizer → OptimizerState
deriving DecidableEq, Repr

/-- `NeuralNetwork._set_optimizer` (src/network.py lines 71-100),
resolved against src/optim.py:
* `"sgd"` calls `opt.GDOptimizer(lr, self)`, but `GDOptimizer.__init__`
  accepts only `learn_rate`, so the call raises TypeError;
* `"momentum"` constructs `MomentumOptimizer` or, with `nesterov=True`,
  `NAGOptimizer`, both of which exist and allocate their accumulators;
* `"rmsprop"`, `"adagrad"`, `"adadelta"`, `"adam"`, `"nadam"` reference
  `opt.RMSpropOptmizer`, `opt.AdaGradOptimizer`, `opt.AdaDeltaOptimizer`,
  `opt.AdamOptimizer`, `opt.NadamOptimizer`, none of which are defined
  in src/optim.py (only a stub class `RMSPROptmizer` with an empty
  constructor exists, under a different name), so each raises
  AttributeError;
* any other name raises `ValueError("Optimizer not supported")`. -/
def setOptimizer (net : Network) (name : String) (lr mom _gamma _beta1 _beta2 : Rat)
    (nesterov : Bool) : Except PyErr OptimizerState :=
  if name = "sgd" then .error .typeError
  else if name = "momentum" then
    if nesterov then .ok (.nag (NAGOptimizer.attach lr mom net))
    else .ok (.momentum (MomentumOptimizer.attach lr mom net))
  else if name = "rmsprop" then .error .attributeError
  else if name = "adagrad" then .error .attributeError
  else if name = "adadelta" then .error .attributeError
  else if name = "adam" then .error .attributeError
  else if name = "nadam" then .error .attributeError
  else .error .valueError

/-- The evolution of `init_fact` through the hidden-layer loop of
`NeuralNetwork.__init__`, over the reals: the factor used at each
iteration, where after appending a layer the source sets
`init_fact = np.sqrt(2/self._layers[-1].num_neurons)` (the appended
layer has `nph` neurons) when `h_et_al` is set, and leaves it unchanged
otherwise. -/
noncomputable def heLoopFacts (hEtAl : Bool) (nph : Nat) : ℝ → Nat → List ℝ
  | _, 0 => []
  | fact, count + 1 =>
      fact :: heLoopFacts hEtAl nph (if hEtAl then Real.sqrt (2 / nph) else fact) count

/-- The initialization factor actually applied to each layer by
`NeuralNetwork.__init__`, in layer order: the first hidden layer is
built with the default `0.01` before `init_fact` is computed, the loop
layers use the running factor starting from `sqrt(2/input_size)` (or
`0.01` without `h_et_al`), and the final `LinearLayer` again uses the
default `0.01`. -/
noncomputable def initFacts (inputSize numHidden nph : Nat) (hEtAl : Bool) : List ℝ :=
  let f1 : ℝ := if hEtAl then Real.sqrt (2 / inputSize) else 1 / 100
  ((1 / 100 : ℝ) :: heLoopFacts hEtAl nph f1 (numHidden - 1)) ++ [1 / 100]

/-- Modelled from the spec (for comparison with `initFacts`): the
factor the He-initialization claim prescribes for each layer,
`sqrt(2/fan_in)` with the fan-in of the first hidden layer equal to the
input size and every later fan-in equal to `neurons_per_hidden`. -/
noncomputable def heFactsClaim (inputSize numHidden nph : Nat) : List ℝ :=
  ((inputSize :: List.replicate (numHidden - 1) nph) ++ [nph]).map
    (fun m : Nat => Real.sqrt (2 / (m : ℝ)))

/-! ## Concrete instances used by the counterexamples and witnesses -/

/-- A one-layer linear network with weights `[[2, 0]]` and freshly
zeroed gradient buffers. -/
def c1Net : Network :=
  { layers := [{ kind := .linear, weights := [[2, 0]], gradInputs := [[]],
                 gradWeights := [[0, 0]], weightGrad := [[0, 0]] }],
    cost := none }

/-- A linear layer with two neurons and one input, weights
`[[1, 0], [1, 0]]` (zero biases). -/
def c5Layer : Layer :=
  { kind := .linear, weights := [[1, 0], [1, 0]], gradInputs := [[], []],
    gradWeights := [[0, 0], [0, 0]], weightGrad := [[0, 0], [0, 0]] }

/-- `c5Layer` after a forward pass on the input `[1]`, so that its
local derivative caches are populated. -/
def c5Fwd : Layer := (layerFwd (fun q => q) (fun q => q) c5Layer [1]).2

/-- The scalar loss `dot [1, 2] (layer output)` of the `c5Layer`
forward computation, as a function of the two bias entries: the loss
whose output gradient `[1, 2]` is fed to `back_propagate` in claim C5.
It is affine in each bias, so its difference quotients are exactly its
partial derivatives. -/
def c5Loss (b0 b1 : Rat) : Rat :=
  dot [1, 2]
    (layerFwd (fun q => q) (fun q => q) { c5Layer with weights := [[1, b0], [1, b1]] } [1]).1

/-- A two-layer linear network with populated weight-gradient buffers,
used to compare the momentum and gradient-descent optimizers. -/
def c7Net : Network :=
  { layers := [{ kind := .linear, weights := [[2, 3]], gradInputs := [[]],
                 gradWeights := [[0, 0]], weightGrad := [[4, 5]] },
               { kind := .linear, weights := [[7, 8]], gradInputs := [[]],
                 gradWeights := [[0, 0]], weightGrad := [[1, 1]] }],
    cost := none }

/-- The network built by `NeuralNetwork(2, 1, 2, 3, activation="relu",
cost="mse")` without He initialization and with zero random draws:
layer shapes 3x3, 3x4, 1x4. -/
def c4Net : Network :=
  { layers := mkNetLayers .relu 2 1 2 3 (fun _ => 1 / 100) (fun _ _ _ => 0),
    cost := some .mse }

/-- A one-layer network whose weight matrix is 1x2, target of the
shape-unchecked `set_weights` counterexample. -/
def c9Net : Network :=
  { layers := [{ kind := .linear, weights := [[1, 2]], gradInputs := [[]],
                 gradWeights := [[0, 0]], weightGrad := [[0, 0]] }],
    cost := none }

/-- `c9Net` after `set_weights([[[5]]])`: the 1x1 matrix is installed
verbatim although it does not match the 1x2 topology. -/
def c9NetSet : Network :=
  { layers := [{ kind := .linear, weights := [[5]], gradInputs := [[]],
                 gradWeights := [[0, 0]], weightGrad := [[0, 0]] }],
    cost := none }

/-- A two-layer network with fresh gradient caches. -/
def c6NetA : Network :=
  { layers := [{ kind := .relu, weights := [[2, 1]], gradInputs := [[]],
                 gradWeights := [[0, 0]], weightGrad := [[0, 0]] },
               { kind := .linear, weights := [[3, 4]], gradInputs := [[]],
                 gradWeights := [[0, 0]], weightGrad := [[0, 0]] }],
    cost := none }

/-- The same architecture and weights as `c6NetA` but with different
cached gradients and cost: forward outputs must agree. -/
def c6NetB : Network :=
  { layers := [{ kind := .relu, weights := [[2, 1]], gradInputs := [[9]],
                 gradWeights := [[1, 1]], weightGrad := [[2, 2]] },
               { kind := .linear, weights := [[3, 4]], gradInputs := [[7]],
                 gradWeights := [[5, 5]], weightGrad := [[6, 6]] }],
    cost := some .mse }

/-- A one-layer ReLU network used as the concrete instance for the
shape-preservation witness. -/
def c10Net : Network :=
  { layers := [{ kind := .relu, weights := [[1, 2]], gradInputs := [[]],
                 gradWeights := [[0, 0]], weightGrad := [[0, 0]] }],
    cost := none }

/-! ## Helper lemmas -/

theorem layerFwd_weights (sig th : Rat → Rat) (l : Layer) (x : Vec) :
    (layerFwd sig th l x).2.weights = l.weights := by
  cases l with
  | mk k w gi gw wg => cases k <;> rfl

theorem forwardLayers_weights (sig th : Rat → Rat) :
    ∀ (ls : List Layer) (x : Vec),
      (forwardLayers sig th ls x).2.map Layer.weights = ls.map Layer.weights := by
  intro ls
  induction ls with
  | nil => intro x; rfl
  | cons l ls ih =>
      intro x
      simp only [forwardLayers, List.map_cons]
      rw [layerFwd_weights, ih]

theorem backPropagate_weights (l : Layer) (g : Vec) :
    (backPropagate l g).2.weights = l.weights := rfl

theorem backPropLayers_weights (reg : Rat) :
    ∀ (ls : List Layer) (g : Vec),
      (backPropLayers reg g ls).2.map Layer.weights
        = ls.map (fun l => matSub l.weights (matScale reg l.weights)) := by
  intro ls
  induction ls with
  | nil => intro g; rfl
  | cons l ls ih =>
      intro g
      simp only [backPropLayers, List.map_cons]
      rw [ih, backPropagate_weights]

theorem backProp_weights (net : Network) (cg : Vec) (reg : Rat) :
    (backProp net cg reg).layers.map Layer.weights
      = net.layers.map (fun l => matSub l.weights (matScale reg l.weights)) := by
  simp only [backProp]
  rw [List.map_reverse, backPropLayers_weights, List.map_reverse, List.reverse_reverse]

theorem layerFwd_fst_congr (sig th : Rat → Rat) (l₁ l₂ : Layer) (x : Vec)
    (hk : l₁.kind = l₂.kind) (hw : l₁.weights = l₂.weights) :
    (layerFwd sig th l₁ x).1 = (layerFwd sig th l₂ x).1 := by
  cases l₁ with
  | mk k₁ w₁ gi₁ gw₁ wg₁ =>
      cases l₂ with
      | mk k₂ w₂ gi₂ gw₂ wg₂ =>
          simp only at hk hw
          subst hk; subst hw
          cases k₁ <;> rfl

theorem forwardLayers_fst_congr (sig th : Rat → Rat) :
    ∀ (ls₁ ls₂ : List Layer) (x : Vec),
      ls₁.map Layer.kind = ls₂.map Layer.kind →
      ls₁.map Layer.weights = ls₂.map Layer.weights →
      (forwardLayers sig th ls₁ x).1 = (forwardLayers sig th ls₂ x).1 := by
  intro ls₁
  induction ls₁ with
  | nil =>
      intro ls₂ x hk _hw
      cases ls₂ with
      | nil => rfl
      | cons _ _ => simp at hk
  | cons l ls ih =>
      intro ls₂ x hk hw
      cases ls₂ with
      | nil => simp at hk
      | cons l₂ ls₂ =>
          simp only [List.map_cons, List.cons.injEq] at hk hw
          simp only [forwardLayers]
          rw [layerFwd_fst_congr sig th l l₂ x hk.1 hw.1]
          exact ih ls₂ _ hk.2 hw.2

theorem setWeights_self_layers :
    ∀ ls : List Layer,
      List.zipWith (fun l w => { l with weights := w }) ls (ls.map Layer.weights) = ls := by
  intro ls
  induction ls with
  | nil => rfl
  | cons l ls ih => simp only [List.map_cons, List.zipWith_cons_cons, ih]

theorem matShape_matScale (c : Rat) (A : Mat) : matShape (matScale c A) = matShape A := by
  simp [matShape, matScale, List.map_map, Function.comp]

theorem matShape_zerosLike (A : Mat) : matShape (zerosLike A) = matShape A := by
  simp [matShape, zerosLike, List.map_map, Function.comp]

theorem matShape_zipWith (f : Rat → Rat → Rat) :
    ∀ (A B : Mat), matShape A = matShape B →
      matShape (List.zipWith (List.zipWith f) A B) = matShape A := by
  intro A
  induction A with
  | nil => intro B _; rfl
  | cons r A ih =>
      intro B h
      cases B with
      | nil => simp [matShape] at h
      | cons s B =>
          simp only [matShape, List.map_cons, List.cons.injEq] at h
          simp only [List.zipWith_cons_cons, matShape, List.map_cons, List.cons.injEq]
          refine ⟨?_, ih B (by simpa [matShape] using h.2)⟩
          simp [List.length_zipWith, h.1]

theorem matShape_matAdd (A B : Mat) (h : matShape A = matShape B) :
    matShape (matAdd A B) = matShape A := matShape_zipWith _ A B h

theorem matShape_matSub (A B : Mat) (h : matShape A = matShape B) :
    matShape (matSub A B) = matShape A := matShape_zipWith _ A B h

theorem matShape_mkLayer (k : ActKind) (n m : Nat) (f : Rat) (d : Nat → Nat → Rat) :
    matShape (mkLayer k n m f d).weights = List.replicate n (m + 1) := by
  simp [matShape, mkLayer, List.map_map, Function.comp_def, List.map_const']

theorem mkLayer_numNeurons (k : ActKind) (n m : Nat) (f : Rat) (d : Nat → Nat → Rat) :
    (mkLayer k n m f d).numNeurons = n := by
  simp [mkLayer, Layer.numNeurons]

theorem mkLayer_kind (k : ActKind) (n m : Nat) (f : Rat) (d : Nat → Nat → Rat) :
    (mkLayer k n m f d).kind = k := rfl

theorem mkLayer_weightGrad_shape (k : ActKind) (n m : Nat) (f : Rat) (d : Nat → Nat → Rat) :
    matShape (mkLayer k n m f d).weightGrad = matShape (mkLayer k n m f d).weights := by
  simp [matShape, mkLayer, zerosMat, List.map_map, Function.comp_def, List.map_const',
    List.map_replicate]

theorem mkHidden_shapes (k : ActKind) (nph : Nat) (facts : Nat → Rat)
    (draw : Nat → Nat → Nat → Rat) :
    ∀ (count idx : Nat),
      (mkHidden k nph facts draw nph count idx).map (fun l => matShape l.weights)
        = List.replicate count (List.replicate nph (nph + 1)) := by
  intro count
  induction count with
  | zero => intro idx; rfl
  | succ c ih =>
      intro idx
      simp only [mkHidden, List.map_cons, mkLayer_numNeurons, List.replicate_succ,
        List.cons.injEq]
      exact ⟨matShape_mkLayer k nph nph _ _, ih (idx + 1)⟩

theorem mkHidden_numNeurons (k : ActKind) (nph : Nat) (facts : Nat → Rat)
    (draw : Nat → Nat → Nat → Rat) :
    ∀ (count idx : Nat) (l : Layer), l ∈ mkHidden k nph facts draw nph count idx →
      l.numNeurons = nph := by
  intro count
  induction count with
  | zero => intro idx l h; simp [mkHidden] at h
  | succ c ih =>
      intro idx l h
      simp only [mkHidden, mkLayer_numNeurons, List.mem_cons] at h
      rcases h with h | h
      · rw [h]; exact mkLayer_numNeurons k nph nph _ _
      · exact ih (idx + 1) l h

theorem mkHidden_kinds (k : ActKind) (nph : Nat) (facts : Nat → Rat)
    (draw : Nat → Nat → Nat → Rat) :
    ∀ (count idx : Nat),
      (mkHidden k nph facts draw nph count idx).map Layer.kind = List.replicate count k := by
  intro count
  induction count with
  | zero => intro idx; rfl
  | succ c ih =>
      intro idx
      simp only [mkHidden, List.map_cons, mkLayer_numNeurons, List.replicate_succ,
        List.cons.injEq]
      exact ⟨rfl, ih (idx + 1)⟩

theorem getLastD_numNeurons (nph : Nat) :
    ∀ (hs : List Layer) (d : Layer), (∀ l ∈ hs, l.numNeurons = nph) →
      d.numNeurons = nph → (hs.getLastD d).numNeurons = nph := by
  intro hs
  induction hs with
  | nil => intro d _ hd; simpa using hd
  | cons a as ih =>
      intro d h _hd
      rw [List.getLastD_cons]
      exact ih a (fun l hl => h l (List.mem_cons_of_mem a hl)) (h a (List.mem_cons_self a as))

theorem mkNetLayers_last_numNeurons (k : ActKind) (inS nh nph : Nat) (facts : Nat → Rat)
    (draw : Nat → Nat → Nat → Rat) :
    ((mkHidden k nph facts draw nph (nh - 1) 1).getLastD
        (mkLayer k nph inS (1 / 100) (draw 0))).numNeurons = nph :=
  getLastD_numNeurons nph _ _ (mkHidden_numNeurons k nph facts draw (nh - 1) 1)
    (mkLayer_numNeurons k nph inS _ _)

theorem mkNetLayers_shapes (k : ActKind) (inS outS nh nph : Nat) (facts : Nat → Rat)
    (draw : Nat → Nat → Nat → Rat) :
    (mkNetLayers k inS outS nh nph facts draw).map (fun l => matShape l.weights)
      = (List.replicate nph (inS + 1)
          :: List.replicate (nh - 1) (List.replicate nph (nph + 1)))
        ++ [List.replicate outS (nph + 1)] := by
  simp only [mkNetLayers, mkLayer_numNeurons, List.map_append, List.map_cons, List.map_nil,
    List.cons_append, List.cons.injEq]
  refine ⟨matShape_mkLayer k nph inS _ _, ?_⟩
  rw [mkHidden_shapes k nph facts draw (nh - 1) 1]
  rw [matShape_mkLayer, mkNetLayers_last_numNeurons k inS nh nph facts draw]

theorem mkNetLayers_kinds (k : ActKind) (inS outS nh nph : Nat) (facts : Nat → Rat)
    (draw : Nat → Nat → Nat → Rat) :
    (mkNetLayers k inS outS nh nph facts draw).map Layer.kind
      = (k :: List.replicate (nh - 1) k) ++ [ActKind.linear] := by
  simp only [mkNetLayers, mkLayer_numNeurons, List.map_append, List.map_cons, List.map_nil,
    List.cons_append, List.cons.injEq]
  rw [mkHidden_kinds k nph facts draw (nh - 1) 1]
  exact ⟨rfl, rfl⟩

theorem layerFwd_fst_length (sig th : Rat → Rat) (l : Layer) (x : Vec) :
    (layerFwd sig th l x).1.length = l.weights.length := by
  cases l with
  | mk k w gi gw wg =>
      cases k <;>
        simp [layerFwd, vecAdd, mvMul, stripBias, biasCol, List.length_zipWith]

theorem forwardLayers_append_length (sig th : Rat → Rat) (l : Layer) :
    ∀ (ls : List Layer) (x : Vec),
      (forwardLayers sig th (ls ++ [l]) x).1.length = l.weights.length := by
  intro ls
  induction ls with
  | nil => intro x; simp [forwardLayers, layerFwd_fst_length]
  | cons a as ih => intro x; simp only [List.cons_append, forwardLayers]; exact ih _

theorem momLoop_attach_shapes (lr mom : Rat) :
    ∀ (ls : List Layer),
      (∀ l ∈ ls, matShape l.weightGrad = matShape l.weights) →
      (momLoop lr mom (ls.map (fun l => zerosLike l.weightGrad)) ls).2.map
          (fun l => matShape l.weights)
        = ls.map (fun l => matShape l.weights) := by
  intro ls
  induction ls with
  | nil => intro _; rfl
  | cons l ls ih =>
      intro h
      have hl : matShape l.weightGrad = matShape l.weights := h l (List.mem_cons_self l ls)
      have hm : matShape (matSub (matScale mom (zerosLike l.weightGrad))
          (matScale lr l.weightGrad)) = matShape l.weights := by
        rw [matShape_matSub _ _ (by rw [matShape_matScale, matShape_matScale,
          matShape_zerosLike]), matShape_matScale, matShape_zerosLike, hl]
      simp only [List.map_cons, momLoop, List.cons.injEq]
      refine ⟨?_, ih (fun a ha => h a (List.mem_cons_of_mem l ha))⟩
      rw [matShape_matAdd _ _ hm.symm]

theorem heLoopFacts_false (nph : Nat) :
    ∀ (n : Nat) (f : ℝ), heLoopFacts false nph f n = List.replicate n f := by
  intro n
  induction n with
  | zero => intro f; rfl
  | succ c ih => intro f; simp [heLoopFacts, ih, List.replicate_succ]

/-! ## Claim theorems -/

/-- Claim C1, counterexample: the claim asserts the per-example order
forward pass, cost, backward pass, optimizer step, then decay, so the
backward pass alone must leave weights unchanged. In the code the decay
`weights -= reg*weights` sits inside `back_prop`: on `c1Net` with
`reg = 1/2` and cost gradient `[1]`, `back_prop` already changes the
weights from `[[2, 0]]` to `[[1, 0]]` although no optimizer step has
run. -/
theorem C1_decay_not_after_optimizer :
    (backProp c1Net [1] (1 / 2)).layers.map Layer.weights = [[[1, 0]]] ∧
    c1Net.layers.map Layer.weights = [[[2, 0]]] ∧
    (backProp c1Net [1] (1 / 2)).layers.map Layer.weights
      ≠ c1Net.layers.map Layer.weights := by
  refine ⟨by with_unfolding_all rfl, by with_unfolding_all rfl, ?_⟩
  intro h
  rw [show (backProp c1Net [1] (1 / 2)).layers.map Layer.weights = [[[1, 0]]] from
      by with_unfolding_all rfl,
    show c1Net.layers.map Layer.weights = [[[2, 0]]] from by with_unfolding_all rfl] at h
  simp only [List.cons.injEq, and_true] at h
  exact absurd h (by norm_num)

/-- Claim C1, amended: during the processing of one example the decay
`weights -= reg*weights` is applied inside `back_prop`, once per layer
immediately after that layer writes its weight gradient — that is,
during the backward pass and before the optimizer update step — and it
is independent of and in addition to the optimizer update; the forward
pass mutates no weight matrix, so within one training iteration only
this decay and the optimizer step touch weights. -/
theorem C1_decay_inside_backward_pass :
    ∀ (net : Network) (cg : Vec) (reg : Rat) (sig th : Rat → Rat) (x : Vec),
      (backProp net cg reg).layers.map Layer.weights
        = net.layers.map (fun l => matSub l.weights (matScale reg l.weights)) ∧
      (forwardPass sig th net x).2.layers.map Layer.weights
        = net.layers.map Layer.weights := by
  intro net cg reg sig th x
  exact ⟨backProp_weights net cg reg, forwardLayers_weights sig th net.layers x⟩

/-- Claim C2: training with optimizer name "sgd" never performs the
update `w - lr*g`. `_set_optimizer` evaluates `opt.GDOptimizer(lr,
self)` while `GDOptimizer.__init__` accepts only `learn_rate`, so the
attach raises TypeError before any example is processed; and even a
directly constructed `GDOptimizer` has `optimize` fail with
AttributeError on the nonexistent `layer.biases` after the first
layer. -/
theorem C2_sgd_attach_type_error :
    (∀ (net : Network) (lr mom gamma beta1 beta2 : Rat) (nv : Bool),
      setOptimizer net "sgd" lr mom gamma beta1 beta2 nv = .error .typeError) ∧
    ∀ (o : GDOptimizer) (l : Layer) (ls : List Layer) (c : Option CostKind),
      (o.optimize { layers := l :: ls, cost := c }).2 = some .attributeError := by
  exact ⟨fun _ _ _ _ _ _ _ => rfl, fun _ _ _ _ => rfl⟩

/-- Claim C3: unknown names do not raise a configuration error.
`_set_activation` builds but never raises its ValueError, so an unknown
activation makes construction fail later with TypeError (calling
`None`); an unknown cost name is silently stored as `None` and
construction returns normally, failing only at train time; only the
unknown-optimizer branch actually raises (a ValueError). -/
theorem C3_unknown_names_not_config_error :
    setActivation "swish" = none ∧
    mkNetwork 2 1 1 2 "swish" "mse" (fun _ => 1 / 100) (fun _ _ _ => 0)
      = .error .typeError ∧
    setCost "nll" = none ∧
    Except.map Network.cost (mkNetwork 2 1 1 2 "relu" "nll" (fun _ => 1 / 100) (fun _ _ _ => 0))
      = .ok none ∧
    setOptimizer c4Net "bogus" 1 0 0 0 0 false = .error .valueError := by
  exact ⟨rfl, rfl, rfl, rfl, rfl⟩

/-- Claim C4: of the eight optimizer names only "momentum" (with and
without the nesterov flag) can be attached; "sgd" raises TypeError
(constructor arity) and the five adaptive names raise AttributeError
(their classes are absent from src/optim.py, which holds only the empty
stub RMSPROptmizer). For the two that attach, the accumulators are
allocated at attach time, one per layer, shaped like that layer weight
matrix. -/
theorem C4_optimizer_attach_failures :
    setOptimizer c4Net "sgd" 1 0 0 0 0 false = .error .typeError ∧
    setOptimizer c4Net "rmsprop" 1 0 0 0 0 false = .error .attributeError ∧
    setOptimizer c4Net "adagrad" 1 0 0 0 0 false = .error .attributeError ∧
    setOptimizer c4Net "adadelta" 1 0 0 0 0 false = .error .attributeError ∧
    setOptimizer c4Net "adam" 1 0 0 0 0 false = .error .attributeError ∧
    setOptimizer c4Net "nadam" 1 0 0 0 0 false = .error .attributeError ∧
    setOptimizer c4Net "momentum" 1 (1 / 2) 0 0 0 false
      = .ok (.momentum ⟨1, 1 / 2, [zerosMat 3 3, zerosMat 3 4, zerosMat 1 4]⟩) ∧
    setOptimizer c4Net "momentum" 1 (1 / 2) 0 0 0 true
      = .ok (.nag ⟨1, 1 / 2, [zerosMat 3 3, zerosMat 3 4, zerosMat 1 4]⟩) ∧
    c4Net.layers.map (fun l => matShape l.weights) = [[3, 3, 3], [4, 4, 4], [4]] ∧
    [zerosMat 3 3, zerosMat 3 4, zerosMat 1 4].map matShape
      = [[3, 3, 3], [4, 4, 4], [4]] := by
  refine ⟨rfl, rfl, rfl, rfl, rfl, rfl, ?_, ?_, ?_, ?_⟩ <;> with_unfolding_all rfl

/-- Claim C5: the weight gradient written by `back_propagate` is wrong
on the bias column as soon as a layer has two or more neurons. For the
two-neuron linear layer `c5Fwd` (weights `[[1,0],[1,0]]`, input `[1]`)
and output gradient `[1, 2]`, the code writes the broadcast scalar 3
into both bias-gradient slots, while the loss `c5Loss` whose output
gradient is `[1, 2]` is affine in each bias with exact difference
quotients 1 and 2: the true partial derivatives. The non-bias entries
1 and 2 are correct. -/
theorem C5_bias_gradient_broadcast_bug :
    (backPropagate c5Fwd [1, 2]).2.weightGrad = [[1, 3], [2, 3]] ∧
    biasCol (backPropagate c5Fwd [1, 2]).2.weightGrad = [3, 3] ∧
    (c5Loss 1 0 - c5Loss 0 0) / 1 = 1 ∧
    (c5Loss (1 / 10000) 0 - c5Loss 0 0) / (1 / 10000) = 1 ∧
    (c5Loss 0 1 - c5Loss 0 0) / 1 = 2 ∧
    (3 : Rat) ≠ 1 ∧ (3 : Rat) ≠ 2 := by
  refine ⟨?_, ?_, ?_, ?_, ?_, by norm_num, by norm_num⟩ <;> with_unfolding_all rfl

theorem mkLayer_weights_length (k : ActKind) (n m : Nat) (f : Rat) (d : Nat → Nat → Rat) :
    (mkLayer k n m f d).weights.length = n := by
  simp [mkLayer]

theorem matShape_decay (reg : Rat) (w : Mat) :
    matShape (matSub w (matScale reg w)) = matShape w :=
  matShape_matSub w _ (by rw [matShape_matScale])

/-- Claim C6: `set_weights(get_weights())` is a no-op — it returns the
network unchanged, hence every subsequent `forward_pass` output is
unchanged — and, for a fixed architecture (same per-layer activation
classes), the ordered weight list fully determines `forward_pass`
behavior: two networks agreeing on kinds and weights produce the same
output on every input regardless of their cached gradients or cost.
`get_weights` is modelled from the spec (section 6), being absent from
src/network.py. -/
theorem C6_set_get_weights_roundtrip :
    ∀ (net : Network),
      setWeights net (getWeights net) = .ok net ∧
      (∀ (net' : Network) (sig th : Rat → Rat) (x : Vec),
        setWeights net (getWeights net) = .ok net' →
        (forwardPass sig th net' x).1 = (forwardPass sig th net x).1) ∧
      ∀ (net₂ : Network) (sig th : Rat → Rat),
        net.layers.map Layer.kind = net₂.layers.map Layer.kind →
        getWeights net = getWeights net₂ →
        ∀ (x : Vec), (forwardPass sig th net x).1 = (forwardPass sig th net₂ x).1 := by
  intro net
  have hset : setWeights net (getWeights net) = .ok net := by
    simp only [setWeights, getWeights, List.length_map, if_true, eq_self_iff_true]
    rw [setWeights_self_layers]
  refine ⟨hset, ?_, ?_⟩
  · intro net' sig th x h
    rw [hset] at h
    injection h with h2
    rw [h2]
  · intro net₂ sig th hk hw x
    simp only [forwardPass]
    exact forwardLayers_fst_congr sig th net.layers net₂.layers x hk hw

/-- Witness for C6 at the concrete networks `c6NetA` and `c6NetB`. -/
theorem C6_set_get_weights_roundtrip_witness :
    setWeights c6NetA (getWeights c6NetA) = .ok c6NetA ∧
    (forwardPass (fun q => q) (fun q => q) c6NetA [3]).1
      = (forwardPass (fun q => q) (fun q => q) c6NetB [3]).1 :=
  ⟨(C6_set_get_weights_roundtrip c6NetA).1,
   (C6_set_get_weights_roundtrip c6NetA).2.2 c6NetB (fun q => q) (fun q => q)
     (by with_unfolding_all rfl) (by with_unfolding_all rfl) [3]⟩

/-- Claim C7: on the two-layer network `c7Net` with `lr = 1`, the
momentum optimizer with `mom = 0` performs exactly `w - lr*g` on every
layer, giving `[[-2, -2]]` and `[[6, 7]]`; the plain SGD optimizer
(`GDOptimizer`) cannot be attached at all ("sgd" raises TypeError), and
calling its `optimize` directly updates only the first layer before
raising AttributeError on `layer.biases`, leaving the second layer at
`[[7, 8]]` — so the two do not produce the same updates (6 differs
from 7 and 7 from 8 in the second layer). -/
theorem C7_momentum_zero_vs_sgd :
    ((MomentumOptimizer.attach 1 0 c7Net).optimize c7Net).2.layers.map Layer.weights
      = [[[-2, -2]], [[6, 7]]] ∧
    (GDOptimizer.optimize ⟨1⟩ c7Net).2 = some .attributeError ∧
    (GDOptimizer.optimize ⟨1⟩ c7Net).1.layers.map Layer.weights
      = [[[-2, -2]], [[7, 8]]] ∧
    setOptimizer c7Net "sgd" 1 0 0 0 0 false = .error .typeError ∧
    ((6 : Rat) ≠ 7 ∧ (7 : Rat) ≠ 8) := by
  refine ⟨?_, rfl, ?_, rfl, by norm_num, by norm_num⟩ <;> with_unfolding_all rfl

/-- Claim C8: with He initialization requested, the factors actually
applied by `NeuralNetwork.__init__` lag the claimed ones by one layer.
At `input_size = 8`, `num_hidden = 2`, `neurons_per_hidden = 2`, the
code uses `[0.01, sqrt(2/8), 0.01] = [0.01, 1/2, 0.01]` (the first
hidden layer and the output layer keep the default `0.01`, and the
second hidden layer gets the factor computed from the input size rather
than from its own fan-in 2), while the claim prescribes
`[sqrt(2/8), sqrt(2/2), sqrt(2/2)] = [1/2, 1, 1]`. Without He
initialization every factor is `0.01` as claimed. -/
theorem C8_he_init_factors_misaligned :
    initFacts 8 2 2 true = [1 / 100, 1 / 2, 1 / 100] ∧
    heFactsClaim 8 2 2 = [1 / 2, 1, 1] ∧
    initFacts 8 2 2 true ≠ heFactsClaim 8 2 2 ∧
    ∀ (inS nh nph : Nat),
      initFacts inS nh nph false
        = ((1 / 100 : ℝ) :: List.replicate (nh - 1) (1 / 100)) ++ [1 / 100] := by
  have h8 : Real.sqrt (2 / ((8 : Nat) : ℝ)) = 1 / 2 := by
    have he : (2 / ((8 : Nat) : ℝ)) = (1 / 2) ^ 2 := by norm_num
    rw [he, Real.sqrt_sq (by norm_num : (0 : ℝ) ≤ 1 / 2)]
  have h2 : Real.sqrt (2 / ((2 : Nat) : ℝ)) = 1 := by
    have he : (2 / ((2 : Nat) : ℝ)) = 1 := by norm_num
    rw [he, Real.sqrt_one]
  have hA : initFacts 8 2 2 true = [1 / 100, 1 / 2, 1 / 100] := by
    simp only [initFacts, heLoopFacts, List.cons_append, List.nil_append, if_true]
    rw [h8]
  have hB : heFactsClaim 8 2 2 = [1 / 2, 1, 1] := by
    simp only [heFactsClaim, List.replicate, List.map_cons, List.map_nil, List.cons_append,
      List.nil_append]
    rw [h8, h2]
  refine ⟨hA, hB, ?_, ?_⟩
  · rw [hA, hB]
    intro h
    simp only [List.cons.injEq, and_true] at h
    exact absurd h.1 (by norm_num)
  · intro inS nh nph
    simp [initFacts, heLoopFacts_false nph]

/-- Claim C9, counterexample: `set_weights` with a list of the right
length but a wrong per-layer shape does not fail at all — the 1x1
matrix `[[5]]` is installed into the 1x2 slot of `c9Net` and the call
returns normally. -/
theorem C9_set_weights_shape_unchecked :
    setWeights c9Net [[[5]]] = .ok c9NetSet ∧
    matShape [[(5 : Rat)]] ≠ matShape [[(1 : Rat), 2]] := by
  refine ⟨by with_unfolding_all rfl, ?_⟩
  intro h
  simp [matShape] at h

/-- Claim C9, amended: mismatched `data`/`labels` lengths make
`shuffle_train_data` fail with an AssertionError (not a
ShapeMismatchError, which the code never defines), before any weight
mutation, and a wrong-length weight list makes `set_weights` fail the
same way before any assignment; but per-layer matrix shapes are not
validated — any correct-length list is installed verbatim. -/
theorem C9_length_asserts_before_mutation :
    (∀ (data labels : List Vec) (perm : List Nat), data.length ≠ labels.length →
      shuffleTrainData data labels perm = .error .assertionError) ∧
    (∀ (net : Network) (ws : List Mat), ws.length ≠ net.layers.length →
      setWeights net ws = .error .assertionError) ∧
    ∀ (net : Network) (ws : List Mat), ws.length = net.layers.length →
      setWeights net ws
        = .ok { net with
            layers := List.zipWith (fun l w => { l with weights := w }) net.layers ws } := by
  refine ⟨?_, ?_, ?_⟩
  · intro data labels perm h
    simp [shuffleTrainData, h]
  · intro net ws h
    simp [setWeights, h]
  · intro net ws h
    simp [setWeights, h]

/-- Witness for the amended C9 at concrete inputs. -/
theorem C9_length_asserts_before_mutation_witness :
    shuffleTrainData [[1]] [] [0] = .error .assertionError ∧
    setWeights c9Net [] = .error .assertionError ∧
    setWeights c9Net [[[5]]]
      = .ok { c9Net with
          layers := List.zipWith (fun l w => { l with weights := w }) c9Net.layers [[[5]]] } :=
  ⟨C9_length_asserts_before_mutation.1 [[1]] [] [0] (by decide),
   C9_length_asserts_before_mutation.2.1 c9Net [] (by decide),
   C9_length_asserts_before_mutation.2.2 c9Net [[[5]]] (by decide)⟩

/-- Claim C10: for every construction, layer shapes are
`(neurons at layer i, neurons at layer i-1 + 1)`: the first hidden
layer is `nph x (inputSize+1)`, each further hidden layer
`nph x (nph+1)`, and the final layer — always linear — is
`outputSize x (nph+1)`; the forward output has length `outputSize` for
every input; and both the `back_prop` decay and the momentum optimizer
step preserve every weight shape. -/
theorem C10_shape_invariants :
    ∀ (k : ActKind) (inS outS nh nph : Nat) (facts : Nat → Rat)
      (draw : Nat → Nat → Nat → Rat),
      (mkNetLayers k inS outS nh nph facts draw).map (fun l => matShape l.weights)
        = (List.replicate nph (inS + 1)
            :: List.replicate (nh - 1) (List.replicate nph (nph + 1)))
          ++ [List.replicate outS (nph + 1)] ∧
      (mkNetLayers k inS outS nh nph facts draw).map Layer.kind
        = (k :: List.replicate (nh - 1) k) ++ [ActKind.linear] ∧
      (∀ (sig th : Rat → Rat) (x : Vec),
        (forwardLayers sig th (mkNetLayers k inS outS nh nph facts draw) x).1.length
          = outS) ∧
      (∀ (net : Network) (cg : Vec) (reg : Rat),
        (backProp net cg reg).layers.map (fun l => matShape l.weights)
          = net.layers.map (fun l => matShape l.weights)) ∧
      ∀ (lr mom : Rat) (net : Network),
        (∀ l ∈ net.layers, matShape l.weightGrad = matShape l.weights) →
        ((MomentumOptimizer.attach lr mom net).optimize net).2.layers.map
            (fun l => matShape l.weights)
          = net.layers.map (fun l => matShape l.weights) := by
  intro k inS outS nh nph facts draw
  refine ⟨mkNetLayers_shapes k inS outS nh nph facts draw,
          mkNetLayers_kinds k inS outS nh nph facts draw, ?_, ?_, ?_⟩
  · intro sig th x
    simp only [mkNetLayers]
    rw [forwardLayers_append_length]
    exact mkLayer_weights_length _ _ _ _ _
  · intro net cg reg
    have h := backProp_weights net cg reg
    have hsplit : ∀ (ls : List Layer),
        ls.map (fun l => matShape l.weights) = (ls.map Layer.weights).map matShape := by
      intro ls; rw [List.map_map]; rfl
    rw [hsplit, hsplit, h]
    simp only [List.map_map, Function.comp_def, matShape_decay]
  · intro lr mom net h
    simp only [MomentumOptimizer.attach, MomentumOptimizer.optimize]
    exact momLoop_attach_shapes lr mom net.layers h

/-- Witness for C10 at a concrete one-layer network. -/
theorem C10_shape_invariants_witness :
    ((MomentumOptimizer.attach 1 (1 / 2) c10Net).optimize c10Net).2.layers.map
        (fun l => matShape l.weights)
      = c10Net.layers.map (fun l => matShape l.weights) :=
  (C10_shape_invariants .relu 1 1 1 1 (fun _ => 1 / 100) (fun _ _ _ => 0)).2.2.2.2 1 (1 / 2)
    c10Net (by decide)
